/-
Verification of the WSG courses gateway (FastAPI service `wsg_courses_mcp`).

Shallow embedding of:
  * `src/routers/courses.py` — the ten route handlers, each issuing at most
    one upstream call, unwrapping the `data` envelope of the upstream JSON
    and re-wrapping it as a local envelope, with the try/except translation
    of failures into HTTP error responses;
  * the FastAPI dispatch layer — ordered route matching and the query
    parameter validation (string minimum lengths, numeric ranges, regex
    patterns) that runs before a handler;
  * `src/dependencies/auth.py` — certificate-authenticated client
    construction (`CertificateAuth.__init__`, `get_client`, `get_cert_client`);
  * `src/config.py` — `Settings.model_post_init` certificate provisioning.

Effects are made explicit: the upstream HTTP client is a function from the
request the handler would issue to a call result, and every handler returns
the list of upstream requests it actually issued together with its outcome.
Python exception flow is modelled by the branch structure: a non-2xx status
raised by `raise_for_status` is the first `except` arm, every other failure
(transport error, JSON decode error, attribute error on `.get`) falls to the
second `except Exception` arm of the corresponding source handler.

Abstraction: the pydantic response models of `src/models/responses.py` are
optional-field pass-through records; the embedding carries the unwrapped
`data` as parsed JSON and does not model pydantic field coercion.
-/
import Mathlib

namespace WsgCourses

/-- JSON values, as produced by `response.json()` in the source. -/
inductive Json where
  | null : Json
  | bool : Bool → Json
  | num : Int → Json
  | str : String → Json
  | arr : List Json → Json
  | obj : List (String × Json) → Json
deriving Repr

/-- First-match lookup in a JSON object field list (Python dict keys are unique,
so first-match agrees with dict lookup). -/
def Json.lookup : List (String × Json) → String → Option Json
  | [], _ => none
  | (k, v) :: rest, key => if k = key then some v else Json.lookup rest key

/-- The Python type name of a value, as it appears in an AttributeError message. -/
def Json.pyTypeName : Json → String
  | .null => "NoneType"
  | .bool _ => "bool"
  | .num _ => "int"
  | .str _ => "str"
  | .arr _ => "list"
  | .obj _ => "dict"

/-- Python `x.get(key, default)`: succeeds on a dict, raises AttributeError
(the error message string) on any other value. -/
def dictGet (j : Json) (key : String) (default : Json) : Except String Json :=
  match j with
  | .obj fields => .ok ((Json.lookup fields key).getD default)
  | _ => .error ("'" ++ j.pyTypeName ++ "' object has no attribute 'get'")

/-- Python truthiness of an optional string: `None` and `""` are falsy. -/
def pyFalsyStrOpt : Option String → Bool
  | none => true
  | some s => s == ""

/-- An upstream HTTP response as the handler sees it: status code, body text,
and the result of `response.json()` (`.error msg` models a decode exception
whose `str` is `msg`). -/
structure UpstreamResponse where
  status_code : Nat
  text : String
  body : Except String Json
deriving Repr

/-- Result of one upstream call: a response, or a transport-level exception
(timeout, connection failure) whose `str` is the carried message. -/
inductive CallResult where
  | success : UpstreamResponse → CallResult
  | transportError : String → CallResult
deriving Repr

/-- The request a handler sends upstream: method, path, query parameters
(in the order the source builds the params dict). -/
structure UpstreamRequest where
  method : String
  path : String
  params : List (String × String)
deriving Repr, DecidableEq

/-- The upstream client: maps the request the handler issues to its result. -/
def Client : Type := UpstreamRequest → CallResult

/-- What the caller receives from a handler: either a local success envelope
(`success` flag, unwrapped `data`, optional `meta` dict) or an HTTP error
response (`HTTPException`) with status code and detail text. -/
inductive HandlerOutcome where
  | envelope : Bool → Json → Option (List (String × Json)) → HandlerOutcome
  | httpError : Nat → String → HandlerOutcome
deriving Repr

/-- httpx `response.is_success`: `raise_for_status` raises exactly when the
status is not 2xx. -/
def is2xx (code : Nat) : Bool := 200 ≤ code && code ≤ 299

/-- `s` contains `sub` as a contiguous substring. -/
def strContains (s sub : String) : Prop := ∃ p q, s = p ++ sub ++ q

/-- Handler `get_categories` (GET /courses/categories). -/
def get_categories (keyword : String) (client : Client) :
    List UpstreamRequest × HandlerOutcome :=
  let req : UpstreamRequest := ⟨"GET", "/courses/categories", [("keyword", keyword)]⟩
  match client req with
  | .transportError msg =>
      ([req], .httpError 500 ("Failed to retrieve categories: " ++ msg))
  | .success r =>
      if is2xx r.status_code then
        match r.body with
        | .error msg => ([req], .httpError 500 ("Failed to retrieve categories: " ++ msg))
        | .ok api_response =>
            match dictGet api_response "data" (.obj []) with
            | .error msg => ([req], .httpError 500 ("Failed to retrieve categories: " ++ msg))
            | .ok d =>
                match dictGet d "categories" (.arr []) with
                | .error msg => ([req], .httpError 500 ("Failed to retrieve categories: " ++ msg))
                | .ok categories_data => ([req], .envelope true categories_data none)
      else ([req], .httpError r.status_code ("WSG API error: " ++ r.text))

/-- Handler `get_tags` (GET /courses/tags). -/
def get_tags (client : Client) : List UpstreamRequest × HandlerOutcome :=
  let req : UpstreamRequest := ⟨"GET", "/courses/tags", []⟩
  match client req with
  | .transportError _ => ([req], .httpError 500 "Failed to retrieve tags")
  | .success r =>
      if is2xx r.status_code then
        match r.body with
        | .error _ => ([req], .httpError 500 "Failed to retrieve tags")
        | .ok api_response =>
            match dictGet api_response "data" (.obj []) with
            | .error _ => ([req], .httpError 500 "Failed to retrieve tags")
            | .ok d =>
                match dictGet d "tags" (.arr []) with
                | .error _ => ([req], .httpError 500 "Failed to retrieve tags")
                | .ok tags_data => ([req], .envelope true tags_data none)
      else ([req], .httpError r.status_code ("WSG API error: " ++ r.text))

/-- Handler `search_courses` (GET /courses/directory). -/
def search_courses (keyword : String) (page_size page : Nat) (client : Client) :
    List UpstreamRequest × HandlerOutcome :=
  let req : UpstreamRequest :=
    ⟨"GET", "/courses/directory",
      [("keyword", keyword), ("pageSize", toString page_size), ("page", toString page)]⟩
  match client req with
  | .transportError msg =>
      ([req], .httpError 500 ("Failed to search courses: " ++ msg))
  | .success r =>
      if is2xx r.status_code then
        match r.body with
        | .error msg => ([req], .httpError 500 ("Failed to search courses: " ++ msg))
        | .ok api_response =>
            match dictGet api_response "data" (.obj []) with
            | .error msg => ([req], .httpError 500 ("Failed to search courses: " ++ msg))
            | .ok course_data =>
                match dictGet course_data "courses" (.arr []) with
                | .error msg => ([req], .httpError 500 ("Failed to search courses: " ++ msg))
                | .ok courses =>
                    match dictGet course_data "totalResults" .null with
                    | .error msg => ([req], .httpError 500 ("Failed to search courses: " ++ msg))
                    | .ok total =>
                        ([req], .envelope true courses
                          (some [("page", .num page), ("page_size", .num page_size),
                                 ("total_results", total)]))
      else ([req], .httpError r.status_code ("WSG API error: " ++ r.text))

/-- Handler `search_by_tagging` (POST /courses/directory/search-by-tagging).
The in-handler DELTA check raises `HTTPException(400)` inside the `try`
block; that exception is caught by the same handler's own
`except Exception` arm, which re-raises it as a 500 with the generic
detail — so the caller observes status 500, not 400, and no upstream
request is issued. -/
def search_by_tagging (tagging_codes : List String) (support_end_date retrieve_type : String)
    (page_size page : Nat) (last_update_date : Option String) (client : Client) :
    List UpstreamRequest × HandlerOutcome :=
  if retrieve_type == "DELTA" && pyFalsyStrOpt last_update_date then
    ([], .httpError 500 "Failed to search courses by tagging")
  else
    let baseParams : List (String × String) :=
      [("taggingCode", String.intercalate "," tagging_codes),
       ("supportEndDate", support_end_date),
       ("retrieveType", retrieve_type),
       ("pageSize", toString page_size),
       ("page", toString page)]
    let params := if pyFalsyStrOpt last_update_date then baseParams
      else baseParams ++ [("lastUpdateDate", last_update_date.getD "")]
    let req : UpstreamRequest := ⟨"GET", "/courses/directory", params⟩
    match client req with
    | .transportError _ => ([req], .httpError 500 "Failed to search courses by tagging")
    | .success r =>
        if is2xx r.status_code then
          match r.body with
          | .error _ => ([req], .httpError 500 "Failed to search courses by tagging")
          | .ok api_response =>
              match dictGet api_response "data" (.obj []) with
              | .error _ => ([req], .httpError 500 "Failed to search courses by tagging")
              | .ok course_data =>
                  match dictGet course_data "courses" (.arr []) with
                  | .error _ => ([req], .httpError 500 "Failed to search courses by tagging")
                  | .ok courses =>
                      match dictGet course_data "totalResults" .null with
                      | .error _ =>
                          ([req], .httpError 500 "Failed to search courses by tagging")
                      | .ok total =>
                          ([req], .envelope true courses
                            (some [("page", .num page), ("page_size", .num page_size),
                                   ("total_results", total)]))
        else ([req], .httpError r.status_code ("WSG API error: " ++ r.text))

/-- Handler `get_autocomplete` (GET /courses/directory/autocomplete). -/
def get_autocomplete (keyword : String) (client : Client) :
    List UpstreamRequest × HandlerOutcome :=
  let req : UpstreamRequest :=
    ⟨"GET", "/courses/directory/autocomplete", [("keyword", keyword)]⟩
  match client req with
  | .transportError _ => ([req], .httpError 500 "Failed to get autocomplete suggestions")
  | .success r =>
      if is2xx r.status_code then
        match r.body with
        | .error _ => ([req], .httpError 500 "Failed to get autocomplete suggestions")
        | .ok api_response =>
            match dictGet api_response "data" (.obj []) with
            | .error _ => ([req], .httpError 500 "Failed to get autocomplete suggestions")
            | .ok d => ([req], .envelope true d none)
      else ([req], .httpError r.status_code ("WSG API error: " ++ r.text))

/-- Handler `get_subcategories` (GET /courses/categories/{category_id}/subCategories). -/
def get_subcategories (category_id : String) (client : Client) :
    List UpstreamRequest × HandlerOutcome :=
  let req : UpstreamRequest :=
    ⟨"GET", "/courses/categories/" ++ category_id ++ "/subCategories", []⟩
  match client req with
  | .transportError _ => ([req], .httpError 500 "Failed to retrieve subcategories")
  | .success r =>
      if is2xx r.status_code then
        match r.body with
        | .error _ => ([req], .httpError 500 "Failed to retrieve subcategories")
        | .ok api_response =>
            match dictGet api_response "data" (.obj []) with
            | .error _ => ([req], .httpError 500 "Failed to retrieve subcategories")
            | .ok d =>
                match dictGet d "subCategories" (.arr []) with
                | .error _ => ([req], .httpError 500 "Failed to retrieve subcategories")
                | .ok subs => ([req], .envelope true subs none)
      else ([req], .httpError r.status_code ("WSG API error: " ++ r.text))

/-- Handler `get_course_details` (GET /courses/directory/{ref_number}). -/
def get_course_details (ref_number : String) (client : Client) :
    List UpstreamRequest × HandlerOutcome :=
  let req : UpstreamRequest := ⟨"GET", "/courses/directory/" ++ ref_number, []⟩
  match client req with
  | .transportError _ => ([req], .httpError 500 "Failed to retrieve course details")
  | .success r =>
      if is2xx r.status_code then
        match r.body with
        | .error _ => ([req], .httpError 500 "Failed to retrieve course details")
        | .ok api_response =>
            match dictGet api_response "data" (.obj []) with
            | .error _ => ([req], .httpError 500 "Failed to retrieve course details")
            | .ok d => ([req], .envelope true d none)
      else ([req], .httpError r.status_code ("WSG API error: " ++ r.text))

/-- Handler `get_related_courses` (GET /courses/directory/{ref_number}/related). -/
def get_related_courses (ref_number : String) (page_size page : Nat) (client : Client) :
    List UpstreamRequest × HandlerOutcome :=
  let req : UpstreamRequest :=
    ⟨"GET", "/courses/directory/" ++ ref_number ++ "/related",
      [("pageSize", toString page_size), ("page", toString page)]⟩
  match client req with
  | .transportError _ => ([req], .httpError 500 "Failed to retrieve related courses")
  | .success r =>
      if is2xx r.status_code then
        match r.body with
        | .error _ => ([req], .httpError 500 "Failed to retrieve related courses")
        | .ok api_response =>
            match dictGet api_response "data" (.obj []) with
            | .error _ => ([req], .httpError 500 "Failed to retrieve related courses")
            | .ok course_data =>
                match dictGet course_data "courses" (.arr []) with
                | .error _ => ([req], .httpError 500 "Failed to retrieve related courses")
                | .ok courses =>
                    ([req], .envelope true courses
                      (some [("page", .num page), ("page_size", .num page_size)]))
      else ([req], .httpError r.status_code ("WSG API error: " ++ r.text))

/-- Handler `get_popular_courses` (GET /courses/directory/popular). -/
def get_popular_courses (page_size page : Nat) (client : Client) :
    List UpstreamRequest × HandlerOutcome :=
  let req : UpstreamRequest :=
    ⟨"GET", "/courses/directory/popular",
      [("pageSize", toString page_size), ("page", toString page)]⟩
  match client req with
  | .transportError _ => ([req], .httpError 500 "Failed to retrieve popular courses")
  | .success r =>
      if is2xx r.status_code then
        match r.body with
        | .error _ => ([req], .httpError 500 "Failed to retrieve popular courses")
        | .ok api_response =>
            match dictGet api_response "data" (.obj []) with
            | .error _ => ([req], .httpError 500 "Failed to retrieve popular courses")
            | .ok course_data =>
                match dictGet course_data "courses" (.arr []) with
                | .error _ => ([req], .httpError 500 "Failed to retrieve popular courses")
                | .ok courses =>
                    ([req], .envelope true courses
                      (some [("page", .num page), ("page_size", .num page_size)]))
      else ([req], .httpError r.status_code ("WSG API error: " ++ r.text))

/-- Handler `get_featured_courses` (GET /courses/directory/featured). -/
def get_featured_courses (page_size page : Nat) (client : Client) :
    List UpstreamRequest × HandlerOutcome :=
  let req : UpstreamRequest :=
    ⟨"GET", "/courses/directory/featured",
      [("pageSize", toString page_size), ("page", toString page)]⟩
  match client req with
  | .transportError _ => ([req], .httpError 500 "Failed to retrieve featured courses")
  | .success r =>
      if is2xx r.status_code then
        match r.body with
        | .error _ => ([req], .httpError 500 "Failed to retrieve featured courses")
        | .ok api_response =>
            match dictGet api_response "data" (.obj []) with
            | .error _ => ([req], .httpError 500 "Failed to retrieve featured courses")
            | .ok course_data =>
                match dictGet course_data "courses" (.arr []) with
                | .error _ => ([req], .httpError 500 "Failed to retrieve featured courses")
                | .ok courses =>
                    ([req], .envelope true courses
                      (some [("page", .num page), ("page_size", .num page_size)]))
      else ([req], .httpError r.status_code ("WSG API error: " ++ r.text))

/-! ### Dispatch layer: ordered route matching (Starlette semantics)

FastAPI registers routes in source order and dispatches an inbound request
to the first route whose path pattern matches; a `{param}` segment matches
any single non-empty path segment. The table below lists the routes of
`src/routers/courses.py` (prefix `/courses`) in registration order, i.e.
in the order the decorated handlers appear in the file. -/

/-- One segment of a route path pattern: a literal, or a path parameter. -/
inductive Seg where
  | lit : String → Seg
  | par : String → Seg
deriving Repr, DecidableEq

/-- A registered route: HTTP method, path pattern, handler name. -/
structure Route where
  method : String
  segs : List Seg
  handler : String
deriving Repr, DecidableEq

/-- Does one pattern segment match one concrete path segment? -/
def segMatches : Seg → String → Bool
  | .lit s, t => s == t
  | .par _, t => t != ""

/-- Does a pattern match a whole path (as a list of segments)? -/
def pathMatches : List Seg → List String → Bool
  | [], [] => true
  | s :: ss, t :: ts => segMatches s t && pathMatches ss ts
  | _, _ => false

/-- The routes of `src/routers/courses.py`, in registration order. -/
def courseRoutes : List Route :=
  [⟨"GET", [.lit "courses", .lit "categories"], "get_categories"⟩,
   ⟨"GET", [.lit "courses", .lit "tags"], "get_tags"⟩,
   ⟨"GET", [.lit "courses", .lit "directory"], "search_courses"⟩,
   ⟨"POST", [.lit "courses", .lit "directory", .lit "search-by-tagging"], "search_by_tagging"⟩,
   ⟨"GET", [.lit "courses", .lit "directory", .lit "autocomplete"], "get_autocomplete"⟩,
   ⟨"GET", [.lit "courses", .lit "categories", .par "category_id", .lit "subCategories"],
     "get_subcategories"⟩,
   ⟨"GET", [.lit "courses", .lit "directory", .par "ref_number"], "get_course_details"⟩,
   ⟨"GET", [.lit "courses", .lit "directory", .par "ref_number", .lit "related"],
     "get_related_courses"⟩,
   ⟨"GET", [.lit "courses", .lit "directory", .lit "popular"], "get_popular_courses"⟩,
   ⟨"GET", [.lit "courses", .lit "directory", .lit "featured"], "get_featured_courses"⟩]

/-- First-match dispatch: the handler that receives a request, or `none`
when no route matches. -/
def dispatch (method : String) (pathSegs : List String) : Option String :=
  (courseRoutes.find? (fun r => r.method == method && pathMatches r.segs pathSegs)).map
    (fun r => r.handler)

/-! ### Query-parameter validation (the FastAPI layer in front of a handler)

FastAPI validates declared `Query` constraints before the handler body
runs and rejects a non-conforming request with a 422 response; an omitted
optional parameter takes its declared default. Each `*_route` function
below composes that validation with the handler. The 422 body is a
structured validation report; only its status code matters here, so the
detail is abstracted to a fixed marker string. -/

/-- Validate a string query parameter with a minimum length and a default. -/
def parseStrParam (raw : Option String) (min_length : Nat) (default : String) :
    Except Nat String :=
  match raw with
  | none => .ok default
  | some s => if min_length ≤ s.length then .ok s else .error 422

/-- Validate `page_size` (ge=1, le=100, default 10). -/
def parsePageSize (raw : Option Int) : Except Nat Nat :=
  match raw with
  | none => .ok 10
  | some x => if 1 ≤ x ∧ x ≤ 100 then .ok x.toNat else .error 422

/-- Validate `page` (ge=0, default 0). -/
def parsePage (raw : Option Int) : Except Nat Nat :=
  match raw with
  | none => .ok 0
  | some x => if 0 ≤ x then .ok x.toNat else .error 422

/-- The regex `^\d{8}$` of `support_end_date` / `last_update_date`. -/
def matchesEightDigits (s : String) : Bool :=
  s.length = 8 && s.toList.all Char.isDigit

/-- The regex `^(FULL|DELTA)$` of `retrieve_type`. -/
def matchesRetrieveType (s : String) : Bool := s == "FULL" || s == "DELTA"

/-- Validate an optional 8-digit date parameter (no default). -/
def parseOptDateParam (raw : Option String) : Except Nat (Option String) :=
  match raw with
  | none => .ok none
  | some s => if matchesEightDigits s then .ok (some s) else .error 422

/-- GET /courses/directory with validation: keyword (min_length=3, default
"python"), page_size, page. -/
def search_route (keyword : Option String) (page_size page : Option Int) (client : Client) :
    List UpstreamRequest × HandlerOutcome :=
  match parseStrParam keyword 3 "python", parsePageSize page_size, parsePage page with
  | .ok kw, .ok ps, .ok pg => search_courses kw ps pg client
  | _, _, _ => ([], .httpError 422 "request validation error")

/-- GET /courses/categories with validation: keyword (min_length=1, default
"training"). -/
def categories_route (keyword : Option String) (client : Client) :
    List UpstreamRequest × HandlerOutcome :=
  match parseStrParam keyword 1 "training" with
  | .ok kw => get_categories kw client
  | .error code => ([], .httpError code "request validation error")

/-- GET /courses/directory/autocomplete with validation: keyword
(min_length=1, default "python"). -/
def autocomplete_route (keyword : Option String) (client : Client) :
    List UpstreamRequest × HandlerOutcome :=
  match parseStrParam keyword 1 "python" with
  | .ok kw => get_autocomplete kw client
  | .error code => ([], .httpError code "request validation error")

/-- POST /courses/directory/search-by-tagging with validation:
tagging_codes (required), support_end_date (required, `^\d{8}$`),
retrieve_type (`^(FULL|DELTA)$`, default "FULL"), page_size, page,
last_update_date (optional, `^\d{8}$`). -/
def tagging_route (tagging_codes : Option (List String)) (support_end_date : Option String)
    (retrieve_type : Option String) (page_size page : Option Int)
    (last_update_date : Option String) (client : Client) :
    List UpstreamRequest × HandlerOutcome :=
  match tagging_codes, support_end_date with
  | some tc, some sed =>
      if matchesEightDigits sed then
        match retrieve_type with
        | some rt =>
            if matchesRetrieveType rt then
              match parsePageSize page_size, parsePage page,
                    parseOptDateParam last_update_date with
              | .ok ps, .ok pg, .ok lud => search_by_tagging tc sed rt ps pg lud client
              | _, _, _ => ([], .httpError 422 "request validation error")
            else ([], .httpError 422 "request validation error")
        | none =>
            match parsePageSize page_size, parsePage page,
                  parseOptDateParam last_update_date with
            | .ok ps, .ok pg, .ok lud => search_by_tagging tc sed "FULL" ps pg lud client
            | _, _, _ => ([], .httpError 422 "request validation error")
      else ([], .httpError 422 "request validation error")
  | _, _ => ([], .httpError 422 "request validation error")

/-! ### Certificate provisioning and the authenticated client factory -/

/-- The configuration of the httpx client built by
`CertificateAuth.get_client`: the (cert, key) pair, the base URL, the
timeout in seconds (source: `timeout=30.0`), redirect following, and the
default headers. -/
structure ClientConfig where
  cert : String × String
  base_url : String
  timeout : Nat
  follow_redirects : Bool
  headers : List (String × String)
deriving Repr, DecidableEq

/-- `CertificateAuth.__init__`: records the paths and verifies both files
exist, raising `FileNotFoundError` (whose `str` is the returned message,
which embeds the path) when one is missing. `certExists` / `keyExists`
model `Path.exists()` for the two paths. -/
def CertificateAuth.init (certExists keyExists : Bool) (cert_path key_path : String) :
    Except String (String × String) :=
  if !certExists then .error ("Certificate not found: " ++ cert_path)
  else if !keyExists then .error ("Private key not found: " ++ key_path)
  else .ok (cert_path, key_path)

/-- `CertificateAuth.get_client`: the httpx.AsyncClient configuration. -/
def CertificateAuth.get_client (cert : String × String) (base_url : String) : ClientConfig :=
  ⟨cert, base_url, 30, true,
   [("Content-Type", "application/json"), ("Accept", "application/json")]⟩

/-- Dependency `get_cert_client`: builds a `CertificateAuth` from the
settings and yields the configured client; a `FileNotFoundError` from
construction is caught and surfaced as `HTTPException(500)` with the
constant detail "Certificate configuration error" (the path-bearing
exception message is only logged). -/
def get_cert_client (certExists keyExists : Bool) (cert_path key_path base_url : String) :
    Except (Nat × String) ClientConfig :=
  match CertificateAuth.init certExists keyExists cert_path key_path with
  | .error _ => .error (500, "Certificate configuration error")
  | .ok cert => .ok (CertificateAuth.get_client cert base_url)

/-- POSIX `Path.is_absolute`. -/
def isAbsolutePath (p : String) : Bool := p.startsWith "/"

/-- POSIX path join of an absolute root with a relative path. -/
def joinPath (root rel : String) : String := root ++ "/" ++ rel

/-- `Settings.model_post_init`: certificate provisioning. Inputs are the
two secret environment variables (`WSG_CERT_PATH` / `WSG_KEY_PATH`, `none`
when unset), the configured paths, and the application root directory
(the directory containing `config.py`). Returns the resolved
(cert_path, key_path) and the list of (path, content) files written to
the fixed temporary directory `/tmp/certificates` (created if absent);
the secret branch is taken when both values are truthy. No branch checks
that any path exists. -/
def model_post_init (wsg_cert wsg_key : Option String) (cert_path key_path app_root : String) :
    (String × String) × List (String × String) :=
  if !pyFalsyStrOpt wsg_cert && !pyFalsyStrOpt wsg_key then
    (("/tmp/certificates/cert.pem", "/tmp/certificates/key.pem"),
     [("/tmp/certificates/cert.pem", wsg_cert.getD ""),
      ("/tmp/certificates/key.pem", wsg_key.getD "")])
  else
    let c := if isAbsolutePath cert_path then cert_path else joinPath app_root cert_path
    let k := if isAbsolutePath key_path then key_path else joinPath app_root key_path
    ((c, k), [])

/-! ## Theorems settling the claims -/

/-- C8: when both certificate and key files exist, the client factory returns
a client configured with (cert, key) client-certificate authentication, the
configured base URL, a fixed 30-second timeout, automatic redirect
following, and default JSON Content-Type and Accept headers. -/
theorem C8_client_configuration (cert_path key_path base_url : String) :
    get_cert_client true true cert_path key_path base_url =
      .ok ⟨(cert_path, key_path), base_url, 30, true,
        [("Content-Type", "application/json"), ("Accept", "application/json")]⟩ := rfl

/-- Helper: `get_categories` always issues exactly its one upstream request. -/
theorem get_categories_requests (kw : String) (client : Client) :
    (get_categories kw client).1 = [⟨"GET", "/courses/categories", [("keyword", kw)]⟩] := by
  simp only [get_categories]
  repeat' split
  all_goals rfl

/-- Helper: `search_courses` always issues exactly its one upstream request. -/
theorem search_courses_requests (kw : String) (ps pg : Nat) (client : Client) :
    (search_courses kw ps pg client).1 =
      [⟨"GET", "/courses/directory",
        [("keyword", kw), ("pageSize", toString ps), ("page", toString pg)]⟩] := by
  simp only [search_courses]
  repeat' split
  all_goals rfl

/-- Helper: `get_autocomplete` always issues exactly its one upstream request. -/
theorem get_autocomplete_requests (kw : String) (client : Client) :
    (get_autocomplete kw client).1 =
      [⟨"GET", "/courses/directory/autocomplete", [("keyword", kw)]⟩] := by
  simp only [get_autocomplete]
  repeat' split
  all_goals rfl

/-- C10: omitting the keyword query parameter on the search-by-keyword,
categories and autocomplete operations is not rejected: the handler runs
with the declared default keyword ("python" for search and autocomplete,
"training" for categories) and issues its upstream call carrying that
default. -/
theorem C10_keyword_defaults (client : Client) :
    categories_route none client = get_categories "training" client ∧
    (categories_route none client).1 =
      [⟨"GET", "/courses/categories", [("keyword", "training")]⟩] ∧
    search_route none none none client = search_courses "python" 10 0 client ∧
    (search_route none none none client).1 =
      [⟨"GET", "/courses/directory",
        [("keyword", "python"), ("pageSize", "10"), ("page", "0")]⟩] ∧
    autocomplete_route none client = get_autocomplete "python" client ∧
    (autocomplete_route none client).1 =
      [⟨"GET", "/courses/directory/autocomplete", [("keyword", "python")]⟩] :=
  ⟨rfl, get_categories_requests "training" client, rfl,
   search_courses_requests "python" 10 0 client, rfl,
   get_autocomplete_requests "python" client⟩

/-- C1 (actual code behavior): a search-by-tagging request with
`retrieve_type = DELTA` and no `last_update_date` passes FastAPI
validation, issues no upstream request, and is answered with status 500
and the generic detail — not with a 4xx. The handler raises
`HTTPException(400)` inside its own `try`, and its `except Exception` arm
catches it and re-raises it as a 500; the repository test
`test_tagging_search_delta_without_last_update` expects 400. -/
theorem C1_delta_without_date_rejected_with_500 (tagging_codes : List String)
    (support_end_date : String) (client : Client)
    (h : matchesEightDigits support_end_date = true) :
    tagging_route (some tagging_codes) (some support_end_date) (some "DELTA")
        none none none client =
      ([], .httpError 500 "Failed to search courses by tagging") := by
  simp [tagging_route, h, matchesRetrieveType, parsePageSize, parsePage,
        parseOptDateParam, search_by_tagging, pyFalsyStrOpt]

/-- C1 witness: the concrete failing request. -/
theorem C1_delta_without_date_rejected_with_500_witness :
    matchesEightDigits "20250101" = true ∧
    tagging_route (some ["1"]) (some "20250101") (some "DELTA") none none none
        (fun _ => .transportError "unreachable") =
      ([], .httpError 500 "Failed to search courses by tagging") :=
  ⟨by decide,
   C1_delta_without_date_rejected_with_500 ["1"] "20250101"
     (fun _ => .transportError "unreachable") (by decide)⟩

/-- C2 (actual code behavior): `GET /courses/directory/popular` and
`GET /courses/directory/featured` are dispatched to `get_course_details`
(the `/directory/{ref_number}` route registered earlier in the file), not
to the dedicated popular/featured handlers, which are unreachable; the
response then unwraps `data` whole instead of `data.courses` and carries
no meta. -/
theorem C2_popular_featured_shadowed :
    dispatch "GET" ["courses", "directory", "popular"] = some "get_course_details" ∧
    dispatch "GET" ["courses", "directory", "featured"] = some "get_course_details" ∧
    (courseRoutes.map (fun r => r.handler)).contains "get_popular_courses" = true ∧
    (courseRoutes.map (fun r => r.handler)).contains "get_featured_courses" = true ∧
    (∀ (courses : List Json) (text : String),
      (get_course_details "popular"
        (fun _ => .success ⟨200, text,
          .ok (Json.obj [("data", Json.obj [("courses", Json.arr courses)])])⟩)).2 =
        .envelope true (Json.obj [("courses", Json.arr courses)]) none) := by
  refine ⟨by decide, by decide, by decide, by decide, ?_⟩
  intro courses text
  simp [get_course_details, is2xx, dictGet, Json.lookup]

/-- C3: for every route handler, an upstream non-2xx response is translated
into a local error response carrying exactly the upstream status code, and
the detail is "WSG API error: " followed by the upstream body text, so the
detail contains the upstream body. -/
theorem C3_upstream_status_propagated (r : UpstreamResponse)
    (h : is2xx r.status_code = false) :
    (∀ kw, (get_categories kw (fun _ => .success r)).2 =
      .httpError r.status_code ("WSG API error: " ++ r.text)) ∧
    (get_tags (fun _ => .success r)).2 =
      .httpError r.status_code ("WSG API error: " ++ r.text) ∧
    (∀ kw ps pg, (search_courses kw ps pg (fun _ => .success r)).2 =
      .httpError r.status_code ("WSG API error: " ++ r.text)) ∧
    (∀ tc sed ps pg lud, (search_by_tagging tc sed "FULL" ps pg lud
        (fun _ => .success r)).2 =
      .httpError r.status_code ("WSG API error: " ++ r.text)) ∧
    (∀ kw, (get_autocomplete kw (fun _ => .success r)).2 =
      .httpError r.status_code ("WSG API error: " ++ r.text)) ∧
    (∀ cid, (get_subcategories cid (fun _ => .success r)).2 =
      .httpError r.status_code ("WSG API error: " ++ r.text)) ∧
    (∀ ref, (get_course_details ref (fun _ => .success r)).2 =
      .httpError r.status_code ("WSG API error: " ++ r.text)) ∧
    (∀ ref ps pg, (get_related_courses ref ps pg (fun _ => .success r)).2 =
      .httpError r.status_code ("WSG API error: " ++ r.text)) ∧
    (∀ ps pg, (get_popular_courses ps pg (fun _ => .success r)).2 =
      .httpError r.status_code ("WSG API error: " ++ r.text)) ∧
    (∀ ps pg, (get_featured_courses ps pg (fun _ => .success r)).2 =
      .httpError r.status_code ("WSG API error: " ++ r.text)) ∧
    strContains ("WSG API error: " ++ r.text) r.text := by
  refine ⟨?_, ?_, ?_, ?_, ?_, ?_, ?_, ?_, ?_, ?_, ?_⟩ <;>
    first
      | exact ⟨"WSG API error: ", "", by rw [String.append_empty]⟩
      | (intros;
         simp [get_categories, get_tags, search_courses, search_by_tagging,
               get_autocomplete, get_subcategories, get_course_details,
               get_related_courses, get_popular_courses, get_featured_courses,
               h, pyFalsyStrOpt])

/-- C3 witness: a 404 with body "not found" against the tags handler. -/
theorem C3_upstream_status_propagated_witness :
    is2xx 404 = false ∧
    (get_tags (fun _ => .success ⟨404, "not found", .ok .null⟩)).2 =
      .httpError 404 ("WSG API error: " ++ "not found") :=
  ⟨by decide,
   (C3_upstream_status_propagated ⟨404, "not found", .ok .null⟩ (by decide)).2.1⟩

/-- C4 counterexample: the search-by-keyword handler puts str(e) of the
original exception verbatim into the 500 detail it sends to the caller
(`detail=f"Failed to search courses: {str(e)}"`), so for a transport
failure whose message is "boom" the client-visible body contains "boom". -/
theorem C4_exception_text_leaked :
    (search_courses "python" 10 0 (fun _ => .transportError "boom")).2 =
      .httpError 500 ("Failed to search courses: " ++ "boom") ∧
    strContains "Failed to search courses: boom" "boom" :=
  ⟨rfl, ⟨"Failed to search courses: ", "", by decide⟩⟩

/-- C4 amended: for a failure that is not an upstream non-2xx status, eight
of the ten handlers answer 500 with a fixed generic detail independent of
the exception, while `get_categories` and `search_courses` append the
original exception text to their 500 detail. -/
theorem C4_generic_internal_errors (msg : String) :
    (get_tags (fun _ => .transportError msg)).2 =
      .httpError 500 "Failed to retrieve tags" ∧
    (∀ tc sed ps pg lud, (search_by_tagging tc sed "FULL" ps pg lud
        (fun _ => .transportError msg)).2 =
      .httpError 500 "Failed to search courses by tagging") ∧
    (∀ kw, (get_autocomplete kw (fun _ => .transportError msg)).2 =
      .httpError 500 "Failed to get autocomplete suggestions") ∧
    (∀ cid, (get_subcategories cid (fun _ => .transportError msg)).2 =
      .httpError 500 "Failed to retrieve subcategories") ∧
    (∀ ref, (get_course_details ref (fun _ => .transportError msg)).2 =
      .httpError 500 "Failed to retrieve course details") ∧
    (∀ ref ps pg, (get_related_courses ref ps pg (fun _ => .transportError msg)).2 =
      .httpError 500 "Failed to retrieve related courses") ∧
    (∀ ps pg, (get_popular_courses ps pg (fun _ => .transportError msg)).2 =
      .httpError 500 "Failed to retrieve popular courses") ∧
    (∀ ps pg, (get_featured_courses ps pg (fun _ => .transportError msg)).2 =
      .httpError 500 "Failed to retrieve featured courses") ∧
    (∀ kw, (get_categories kw (fun _ => .transportError msg)).2 =
      .httpError 500 ("Failed to retrieve categories: " ++ msg)) ∧
    (∀ kw ps pg, (search_courses kw ps pg (fun _ => .transportError msg)).2 =
      .httpError 500 ("Failed to search courses: " ++ msg)) := by
  refine ⟨rfl, ?_, ?_, ?_, ?_, ?_, ?_, ?_, ?_, ?_⟩ <;> intros <;>
    simp [search_by_tagging, get_autocomplete, get_subcategories, get_course_details,
          get_related_courses, get_popular_courses, get_featured_courses,
          get_categories, search_courses, pyFalsyStrOpt]

/-- C5: when the certificate or the key file is missing at
client-construction time, `CertificateAuth.__init__` fails with a
FileNotFoundError and the caller receives a 500 whose detail is the
constant "Certificate configuration error" — the same for every path, so
the raw filesystem path never reaches the response (it is only logged). -/
theorem C5_missing_file_internal_error (certExists keyExists : Bool)
    (cert_path key_path base_url : String)
    (h : certExists = false ∨ keyExists = false) :
    (∃ m, CertificateAuth.init certExists keyExists cert_path key_path = .error m) ∧
    get_cert_client certExists keyExists cert_path key_path base_url =
      .error (500, "Certificate configuration error") := by
  rcases h with h | h <;> subst h
  · exact ⟨⟨_, rfl⟩, rfl⟩
  · cases certExists
    · exact ⟨⟨_, rfl⟩, rfl⟩
    · exact ⟨⟨_, rfl⟩, rfl⟩

/-- C5 witness: the default configured paths with a missing certificate. -/
theorem C5_missing_file_internal_error_witness :
    ((false : Bool) = false ∨ (true : Bool) = false) ∧
    ((∃ m, CertificateAuth.init false true "certificates/cert.pem"
        "certificates/key.pem" = .error m) ∧
     get_cert_client false true "certificates/cert.pem" "certificates/key.pem"
        "https://api.ssg-wsg.sg" = .error (500, "Certificate configuration error")) :=
  ⟨Or.inl rfl,
   C5_missing_file_internal_error false true "certificates/cert.pem"
     "certificates/key.pem" "https://api.ssg-wsg.sg" (Or.inl rfl)⟩

/-- C6: pagination echo — for any 2xx upstream response carrying
`totalResults`, the search-by-keyword response meta is
`{page, page_size, total_results}` with the request page and page_size
and the upstream total, whatever the number of returned course records. -/
theorem C6_search_meta_echo (keyword : String) (page_size page : Nat)
    (st : Nat) (text : String) (courses : List Json) (total : Json)
    (h : is2xx st = true) :
    search_courses keyword page_size page (fun _ => .success ⟨st, text,
        .ok (Json.obj [("data",
          Json.obj [("courses", Json.arr courses), ("totalResults", total)])])⟩) =
      ([⟨"GET", "/courses/directory",
          [("keyword", keyword), ("pageSize", toString page_size),
           ("page", toString page)]⟩],
       .envelope true (Json.arr courses)
         (some [("page", .num page), ("page_size", .num page_size),
                ("total_results", total)])) := by
  simp [search_courses, h, dictGet, Json.lookup]

/-- C6 witness: page_size 5, page 2, three-course payload, totalResults 25. -/
theorem C6_search_meta_echo_witness :
    is2xx 200 = true ∧
    search_courses "python" 5 2 (fun _ => .success ⟨200, "",
        .ok (Json.obj [("data",
          Json.obj [("courses", Json.arr [Json.obj [], Json.obj [], Json.obj []]),
                    ("totalResults", Json.num 25)])])⟩) =
      ([⟨"GET", "/courses/directory",
          [("keyword", "python"), ("pageSize", "5"), ("page", "2")]⟩],
       .envelope true (Json.arr [Json.obj [], Json.obj [], Json.obj []])
         (some [("page", .num 2), ("page_size", .num 5),
                ("total_results", Json.num 25)])) :=
  ⟨by decide,
   C6_search_meta_echo "python" 5 2 200 ""
     [Json.obj [], Json.obj [], Json.obj []] (Json.num 25) (by decide)⟩

/-- C7: certificate provisioning — when both secret environment values are
truthy, their contents are written to the fixed temporary files
`/tmp/certificates/cert.pem` and `/tmp/certificates/key.pem` and those
paths are returned; otherwise the configured paths are returned — kept
as-is when absolute, resolved against the application root when relative —
with nothing written and no existence check (the model has no notion of
the files existing). -/
theorem C7_certificate_provisioning (cert_secret key_secret : String)
    (cert_path key_path app_root : String)
    (hc : cert_secret ≠ "") (hk : key_secret ≠ "") :
    model_post_init (some cert_secret) (some key_secret) cert_path key_path app_root =
      (("/tmp/certificates/cert.pem", "/tmp/certificates/key.pem"),
       [("/tmp/certificates/cert.pem", cert_secret),
        ("/tmp/certificates/key.pem", key_secret)]) ∧
    (∀ wsg_cert wsg_key : Option String,
      (pyFalsyStrOpt wsg_cert || pyFalsyStrOpt wsg_key) = true →
      model_post_init wsg_cert wsg_key cert_path key_path app_root =
        ((if isAbsolutePath cert_path then cert_path else joinPath app_root cert_path,
          if isAbsolutePath key_path then key_path else joinPath app_root key_path),
         [])) := by
  constructor
  · simp [model_post_init, pyFalsyStrOpt, hc, hk]
  · intro wc wk hw
    have hcond : (!pyFalsyStrOpt wc && !pyFalsyStrOpt wk) = false := by
      rcases Bool.or_eq_true_iff.mp hw with h | h <;> simp [h]
    simp [model_post_init, hcond]

/-- C7 witness: secret contents present with the default relative paths. -/
theorem C7_certificate_provisioning_witness :
    model_post_init (some "CERT-PEM-DATA") (some "KEY-PEM-DATA")
        "certificates/cert.pem" "certificates/key.pem" "/app" =
      (("/tmp/certificates/cert.pem", "/tmp/certificates/key.pem"),
       [("/tmp/certificates/cert.pem", "CERT-PEM-DATA"),
        ("/tmp/certificates/key.pem", "KEY-PEM-DATA")]) :=
  (C7_certificate_provisioning "CERT-PEM-DATA" "KEY-PEM-DATA"
    "certificates/cert.pem" "certificates/key.pem" "/app"
    (by decide) (by decide)).1

/-- C9: for every handler that unwraps a list key, a 2xx upstream response
whose JSON object lacks the `data` key, or whose `data` object lacks the
unwrap key, yields a success envelope with an empty list as data, not an
error response. -/
theorem C9_missing_keys_empty_list (st : Nat) (text : String)
    (d : List (String × Json)) (h : is2xx st = true)
    (hcat : Json.lookup d "categories" = none)
    (htag : Json.lookup d "tags" = none)
    (hcrs : Json.lookup d "courses" = none)
    (hsub : Json.lookup d "subCategories" = none)
    (htot : Json.lookup d "totalResults" = none) :
    ∀ body ∈ [Json.obj [], Json.obj [("data", Json.obj d)]],
      (∀ kw, (get_categories kw (fun _ => .success ⟨st, text, .ok body⟩)).2 =
        .envelope true (.arr []) none) ∧
      (get_tags (fun _ => .success ⟨st, text, .ok body⟩)).2 =
        .envelope true (.arr []) none ∧
      (∀ kw ps pg, (search_courses kw ps pg (fun _ => .success ⟨st, text, .ok body⟩)).2 =
        .envelope true (.arr [])
          (some [("page", .num pg), ("page_size", .num ps),
                 ("total_results", .null)])) ∧
      (∀ tc sed ps pg, (search_by_tagging tc sed "FULL" ps pg none
          (fun _ => .success ⟨st, text, .ok body⟩)).2 =
        .envelope true (.arr [])
          (some [("page", .num pg), ("page_size", .num ps),
                 ("total_results", .null)])) ∧
      (∀ cid, (get_subcategories cid (fun _ => .success ⟨st, text, .ok body⟩)).2 =
        .envelope true (.arr []) none) ∧
      (∀ ref ps pg, (get_related_courses ref ps pg
          (fun _ => .success ⟨st, text, .ok body⟩)).2 =
        .envelope true (.arr []) (some [("page", .num pg), ("page_size", .num ps)])) ∧
      (∀ ps pg, (get_popular_courses ps pg (fun _ => .success ⟨st, text, .ok body⟩)).2 =
        .envelope true (.arr []) (some [("page", .num pg), ("page_size", .num ps)])) ∧
      (∀ ps pg, (get_featured_courses ps pg (fun _ => .success ⟨st, text, .ok body⟩)).2 =
        .envelope true (.arr []) (some [("page", .num pg), ("page_size", .num ps)])) := by
  intro body hb
  simp only [List.mem_cons, List.mem_singleton, List.not_mem_nil, or_false] at hb
  rcases hb with rfl | rfl <;>
    refine ⟨?_, ?_, ?_, ?_, ?_, ?_, ?_, ?_⟩ <;> intros <;>
      simp [get_categories, get_tags, search_courses, search_by_tagging,
            get_subcategories, get_related_courses, get_popular_courses,
            get_featured_courses, h, dictGet, Json.lookup, pyFalsyStrOpt,
            hcat, htag, hcrs, hsub, htot]

/-- C9 witness: a 200 response with body `{}` against the tags handler. -/
theorem C9_missing_keys_empty_list_witness :
    (get_tags (fun _ => .success ⟨200, "", .ok (Json.obj [])⟩)).2 =
      .envelope true (.arr []) none :=
  ((C9_missing_keys_empty_list 200 "" [] (by decide) rfl rfl rfl rfl rfl
      (Json.obj []) (List.mem_cons_self _ _)).2.1)

end WsgCourses
